import Mathlib

/-
  Verification development for the driver-admin-frontend repository.

  The repository is a React admin dashboard; the definitions below are a
  shallow embedding of the pieces of client-side logic that carry actual
  behavior: timestamp interpretation and the five-minute recency check on
  the Map page, the Dashboard online-driver count, the Delivery Status
  stats and list filter, the axios request/response interceptors over the
  browser local storage, the driver-edit payload construction, the bulk
  assignment on the Assignments page, and the auto-refresh interval
  effect of the Map page.

  Times are modelled as integers (milliseconds since the epoch); an
  invalid JavaScript date (NaN) is modelled as Option.none.
-/

namespace DriverAdmin

/-- A timestamp value as it appears in API payloads. `fsSeconds` models a
Firestore timestamp object carrying a `_seconds` field, `millis` a plain
numeric millisecond value, and `dateVal` a date string or Date object whose
JavaScript parse result is `v` (`none` standing for an invalid date, NaN). -/
inductive TSVal where
  | fsSeconds (s : Int)
  | millis (m : Int)
  | dateVal (v : Option Int)
deriving DecidableEq

/-- The millisecond interpretation of an optional timestamp, as computed by
`isLocationRecent`, `filterLocationsByDate` (Map.jsx) and the Dashboard
online filter: a truthy `_seconds` field is multiplied by 1000, a number is
taken as-is, anything else goes through the Date constructor. A Firestore
object with `_seconds` equal to 0 is falsy in JavaScript, so it falls
through to the Date constructor and yields an invalid date (`none`). -/
def tsToMillis : Option TSVal → Option Int
  | none => none
  | some (.fsSeconds s) => if s = 0 then none else some (s * 1000)
  | some (.millis m) => some m
  | some (.dateVal v) => v

/-- JavaScript truthiness of a timestamp value (the `if (!timestamp)` guard
at the top of `isLocationRecent`): null and undefined are falsy, the number
0 is falsy, objects and non-empty strings are truthy. -/
def tsTruthy : Option TSVal → Bool
  | none => false
  | some (.millis m) => decide (m ≠ 0)
  | some (.fsSeconds _) => true
  | some (.dateVal _) => true

/-- `isLocationRecent` from Map.jsx: a falsy timestamp is not recent;
otherwise the timestamp is converted to milliseconds and compared against
the five minute threshold, `(now - locationTime) < 5 * 60 * 1000`. The
comparison with an invalid date (NaN) is false in JavaScript. -/
def isLocationRecent (now : Int) (ts : Option TSVal) : Bool :=
  if tsTruthy ts then
    match tsToMillis ts with
    | some locationTime => decide (now - locationTime < 300000)
    | none => false
  else false

/-- A location log record as returned by the locations endpoint. -/
structure LocationLog where
  latitude : Int
  longitude : Int
  speed : Option Int
  timestamp : Option TSVal
deriving DecidableEq

/-- The day window derived from the selected date string on the Map page:
`dayStart` is the local midnight of that date in milliseconds, and the
window extends to `dayStart + 86400000` (the `nextDay` bound). -/
structure DayWindow where
  dayStart : Int
deriving DecidableEq

/-- `filterLocationsByDate` from Map.jsx: with a falsy date the logs are
returned unchanged; otherwise only the logs whose converted timestamp lies
in `[dayStart, nextDay)` are kept (logs with an invalid timestamp fail the
range comparison). -/
def filterLocationsByDate (logs : List LocationLog) (date : Option DayWindow) :
    List LocationLog :=
  match date with
  | none => logs
  | some w =>
    logs.filter fun log =>
      match tsToMillis log.timestamp with
      | some t => decide (w.dayStart ≤ t) && decide (t < w.dayStart + 86400000)
      | none => false

/-- A driver record (id, fullname, username, phone). -/
structure Driver where
  id : Nat
  fullname : String
  username : String
  phone : String
deriving DecidableEq

/-- A delivery record as consumed client-side. Fields that page code
accesses through optional chaining are modelled as options. -/
structure Delivery where
  id : Nat
  title : Option String
  description : Option String
  destination : Option String
  items : List (String × String)
  status : String
  assignedDriverId : Option Nat
  driverName : Option String
deriving DecidableEq

/-- The state the Map page status logic reads: the per-driver location
logs, the selected date window, the fetched deliveries, and the current
wall-clock time in milliseconds. -/
structure MapEnv where
  driverLocations : Nat → Option (List LocationLog)
  selectedDate : Option DayWindow
  deliveries : List Delivery
  now : Int

/-- `getLatestLocation` from Map.jsx: missing or empty logs give null;
otherwise the first element of the date-filtered logs, or null when that
filter is empty. -/
def getLatestLocation (env : MapEnv) (driverId : Nat) : Option LocationLog :=
  match env.driverLocations driverId with
  | none => none
  | some logs =>
    if logs.isEmpty then none
    else (filterLocationsByDate logs env.selectedDate).head?

/-- The active-delivery test inside `getDriverStatus`: some fetched
delivery is assigned to this driver and has status assigned. -/
def hasActiveDeliveries (env : MapEnv) (driver : Driver) : Bool :=
  env.deliveries.any fun delivery =>
    delivery.assignedDriverId == some driver.id && delivery.status == "assigned"

/-- `getDriverStatus` from Map.jsx: offline when there is no latest
location for the selected date or the latest ping is not recent, otherwise
delivering when the driver has an active assignment and online otherwise. -/
def getDriverStatus (env : MapEnv) (driver : Driver) : String :=
  match getLatestLocation env driver.id with
  | none => "offline"
  | some latestLocation =>
    if isLocationRecent env.now latestLocation.timestamp then
      if hasActiveDeliveries env driver then "delivering" else "online"
    else "offline"

/-- The browser local storage entries the API client touches. -/
structure Storage where
  token : Option String
  user : Option String
deriving DecidableEq

/-- The browser state the response interceptor can mutate: the local
storage and the current location. -/
structure BrowserState where
  storage : Storage
  href : String
deriving DecidableEq

/-- An axios error as seen by the response interceptor: the optional HTTP
status of the optional response (`error.response?.status`). -/
structure ApiError where
  status : Option Int
deriving DecidableEq

/-- The error branch of `api.interceptors.response` (services/api.js): on
status 401 the token and user entries are removed and the browser is sent
to /login; in every case the original error is re-rejected (returned). -/
def responseErrorInterceptor (error : ApiError) (b : BrowserState) :
    BrowserState × ApiError :=
  if error.status == some 401 then
    ({ storage := { b.storage with token := none, user := none },
       href := "/login" }, error)
  else (b, error)

/-- The request headers the request interceptor can set. -/
structure RequestConfig where
  authorization : Option String
deriving DecidableEq

/-- `api.interceptors.request` (services/api.js): reads the token entry
from local storage and, when it is truthy (present and non-empty), sets the
Authorization header to the Bearer string. -/
def requestInterceptor (storage : Storage) (config : RequestConfig) :
    RequestConfig :=
  match storage.token with
  | some token =>
    if token ≠ "" then
      { config with authorization := some ("Bearer " ++ token) }
    else config
  | none => config

/-- The observable behavior of one catch block (or error branch) of a page
operation: whether it shows a window alert, whether it writes to the
console, and whether it retries the failed call. -/
structure CatchHandler where
  name : String
  alerts : Bool
  logsConsole : Bool
  retries : Bool
deriving DecidableEq

/-- Every API-failure handler in the repository, read off the catch blocks
of the page components and of the auth context. `AuthContext.login`
returns the error message to its caller instead of alerting or logging. -/
def errorHandlers : List CatchHandler :=
  [ { name := "Map.fetchData", alerts := false, logsConsole := true, retries := false }
  , { name := "Map.fetchDriverLocation", alerts := false, logsConsole := true, retries := false }
  , { name := "DeliveryStatus.fetchDeliveries", alerts := true, logsConsole := true, retries := false }
  , { name := "DeliveryStatus.loadDeliveryImages", alerts := false, logsConsole := true, retries := false }
  , { name := "DeliveryStatus.handleApprove", alerts := true, logsConsole := true, retries := false }
  , { name := "DeliveryStatus.handleReject", alerts := true, logsConsole := true, retries := false }
  , { name := "Dashboard.fetchDashboardData", alerts := false, logsConsole := true, retries := false }
  , { name := "Drivers.fetchDrivers", alerts := true, logsConsole := true, retries := false }
  , { name := "Drivers.handleSubmit", alerts := true, logsConsole := true, retries := false }
  , { name := "Drivers.handleDeleteDriver", alerts := true, logsConsole := true, retries := false }
  , { name := "DeliveryPoints.fetchDeliveries", alerts := true, logsConsole := true, retries := false }
  , { name := "DeliveryPoints.fetchDrivers", alerts := false, logsConsole := true, retries := false }
  , { name := "DeliveryPoints.handleSubmit", alerts := true, logsConsole := true, retries := false }
  , { name := "DeliveryPoints.handleDeleteDelivery", alerts := true, logsConsole := true, retries := false }
  , { name := "DeliveryPoints.handleAssignDriver", alerts := true, logsConsole := true, retries := false }
  , { name := "DeliveryPoints.handleApproveDelivery", alerts := true, logsConsole := true, retries := false }
  , { name := "Assignments.fetchData", alerts := true, logsConsole := true, retries := false }
  , { name := "Assignments.handleAssignDeliveries", alerts := true, logsConsole := true, retries := false }
  , { name := "Assignments.handleUnassignDelivery", alerts := true, logsConsole := true, retries := false }
  , { name := "AuthContext.login", alerts := false, logsConsole := false, retries := false } ]

/-- The handlers that do not show a user-facing alert: the background data
refreshes, the image loader, and the login handler. -/
def silentHandlers : List String :=
  [ "Map.fetchData", "Map.fetchDriverLocation", "DeliveryStatus.loadDeliveryImages"
  , "Dashboard.fetchDashboardData", "DeliveryPoints.fetchDrivers", "AuthContext.login" ]

/-- A record of the locations endpoint payload as read by the Dashboard:
only the timestamp matters for the online count. -/
structure LocRecord where
  driverId : Nat
  timestamp : Option TSVal
deriving DecidableEq

/-- The per-record recency test of `fetchDashboardData` (Dashboard page):
the converted timestamp must be strictly greater than `now - 5 * 60 * 1000`
(a NaN conversion compares false). -/
def dashRecent (now : Int) (ts : Option TSVal) : Bool :=
  match tsToMillis ts with
  | some t => decide (now - 300000 < t)
  | none => false

/-- The Online Now statistic of `fetchDashboardData`: the number of
location records whose timestamp passes the recency test. -/
def dashboardOnlineDrivers (now : Int) (locations : List LocRecord) : Nat :=
  (locations.filter fun loc => dashRecent now loc.timestamp).length

/-- The `stats` object of the Delivery Status page. -/
structure DeliveryStats where
  total : Nat
  pending : Nat
  assigned : Nat
  completed : Nat
  approved : Nat
deriving DecidableEq

/-- `stats` from DeliveryStatus.jsx: the unfiltered length plus one filter
count per status value. -/
def deliveryStats (deliveries : List Delivery) : DeliveryStats :=
  { total := deliveries.length
  , pending := (deliveries.filter fun d => d.status == "pending").length
  , assigned := (deliveries.filter fun d => d.status == "assigned").length
  , completed := (deliveries.filter fun d => d.status == "completed").length
  , approved := (deliveries.filter fun d => d.status == "approved").length }

/-- A browser interval timer: its id, the callback it schedules, and its
period in milliseconds. -/
structure Interval where
  id : Nat
  callback : String
  periodMs : Nat
deriving DecidableEq

/-- The browser timer state: the next fresh interval id and the list of
currently active intervals. -/
structure TimerState where
  nextId : Nat
  active : List Interval
deriving DecidableEq

/-- `setInterval`: registers a new interval under a fresh id and returns
that id. -/
def jsSetInterval (callback : String) (periodMs : Nat) (s : TimerState) :
    Nat × TimerState :=
  (s.nextId,
   { nextId := s.nextId + 1
   , active := s.active ++ [{ id := s.nextId, callback := callback, periodMs := periodMs }] })

/-- `clearInterval`: removes the interval with the given id. -/
def jsClearInterval (intervalId : Nat) (s : TimerState) : TimerState :=
  { s with active := s.active.filter fun i => i.id != intervalId }

/-- One run of the Map page auto-refresh effect: the immediate calls it
makes, the timer state it leaves behind, and the interval id captured by
its cleanup closure. -/
structure EffectRun where
  immediateCalls : List String
  state : TimerState
  intervalId : Option Nat
deriving DecidableEq

/-- The effect body of the Map page (Map.jsx): it calls `fetchData` once,
and when auto-refresh is enabled it additionally schedules `fetchData` on a
30000 millisecond interval, remembering the interval id for cleanup. -/
def mapRefreshEffect (autoRefresh : Bool) (s : TimerState) : EffectRun :=
  if autoRefresh then
    let r := jsSetInterval "fetchData" 30000 s
    { immediateCalls := ["fetchData"], state := r.2, intervalId := some r.1 }
  else
    { immediateCalls := ["fetchData"], state := s, intervalId := none }

/-- The cleanup returned by the Map page effect: clears the interval when
one was created, otherwise does nothing. -/
def mapRefreshCleanup (intervalId : Option Nat) (s : TimerState) : TimerState :=
  match intervalId with
  | some id => jsClearInterval id s
  | none => s

/-- The driver form state of the Drivers page modal. -/
structure DriverForm where
  fullname : String
  username : String
  password : String
  phone : String
deriving DecidableEq

/-- The `updateData` object built by `handleSubmit` of the Drivers page in
edit mode: fullname and phone always, password only when the entered
password is truthy (non-empty). -/
structure UpdateData where
  fullname : String
  phone : String
  password : Option String
deriving DecidableEq

/-- `handleSubmit` (edit branch) of the Drivers page: builds the update
object from the form, leaving username and role out. -/
def handleSubmitEditData (formData : DriverForm) : UpdateData :=
  { fullname := formData.fullname
  , phone := formData.phone
  , password := if formData.password ≠ "" then some formData.password else none }

/-- `driversAPI.update` (services/api.js): rebuilds the request body from
the received data, again keeping only fullname, phone, and a truthy
password. The body is the ordered list of JSON fields sent to the
backend. -/
def driversAPIUpdateBody (data : UpdateData) : List (String × String) :=
  [("fullname", data.fullname), ("phone", data.phone)] ++
    (match data.password with
     | some p => if p ≠ "" then [("password", p)] else []
     | none => [])

/-- The full edit submission path: form state through `handleSubmit` into
`driversAPI.update`. -/
def driverEditRequestBody (formData : DriverForm) : List (String × String) :=
  driversAPIUpdateBody (handleSubmitEditData formData)

/-- One PATCH assign request, as issued by `deliveriesAPI.assignDriver`. -/
structure AssignRequest where
  deliveryId : Nat
  driverId : Nat
deriving DecidableEq

/-- `handleAssignDeliveries` from the Assignments page, as the list of
assign requests it issues: nothing without a selected driver or without
selected deliveries; otherwise one request per selected delivery whose
status is pending, and nothing when no selected delivery is pending. -/
def handleAssignDeliveries (selectedDriver : Option Driver)
    (selectedDeliveries : List Delivery) : List AssignRequest :=
  match selectedDriver with
  | none => []
  | some driver =>
    if selectedDeliveries.isEmpty then []
    else
      let newDeliveries := selectedDeliveries.filter fun d => d.status == "pending"
      if newDeliveries.isEmpty then []
      else newDeliveries.map fun d => { deliveryId := d.id, driverId := driver.id }

/-- Does the character list `pat` start the character list `s`? -/
def startsWithChars : List Char → List Char → Bool
  | [], _ => true
  | _ :: _, [] => false
  | p :: ps, c :: cs => p == c && startsWithChars ps cs

/-- Does the character list `pat` occur inside the character list `s`?
This is the substring test behind `String.prototype.includes`. -/
def containsChars (pat : List Char) : List Char → Bool
  | [] => startsWithChars pat []
  | c :: cs => startsWithChars pat (c :: cs) || containsChars pat cs

/-- `s.includes(pat)` for JavaScript strings. -/
def jsIncludes (s pat : String) : Bool :=
  containsChars pat.data s.data

/-- `s.toLowerCase()` for JavaScript strings. -/
def jsToLower (s : String) : String :=
  ⟨s.data.map Char.toLower⟩

/-- One disjunct of `matchesSearch`: optional chaining makes a missing
field contribute false, a present field is lower-cased and tested for the
lower-cased search term. -/
def optFieldMatches (field : Option String) (searchTerm : String) : Bool :=
  match field with
  | some s => jsIncludes (jsToLower s) (jsToLower searchTerm)
  | none => false

/-- `filteredDeliveries` from DeliveryStatus.jsx and the DeliveryPoints
page: a delivery is kept when its title, destination, or driver name
matches the search term and its status matches the status filter (the
value all matching everything). -/
def filteredDeliveries (searchTerm statusFilter : String)
    (deliveries : List Delivery) : List Delivery :=
  deliveries.filter fun delivery =>
    (optFieldMatches delivery.title searchTerm ||
     optFieldMatches delivery.destination searchTerm ||
     optFieldMatches delivery.driverName searchTerm) &&
    (statusFilter == "all" || delivery.status == statusFilter)

theorem isLocationRecent_of_tsToMillis_none (now : Int) (ts : Option TSVal)
    (h : tsToMillis ts = none) : isLocationRecent now ts = false := by
  unfold isLocationRecent
  rw [h]
  split <;> rfl

theorem isLocationRecent_of_not_lt (now t : Int) (ts : Option TSVal)
    (hts : tsToMillis ts = some t) (hge : ¬ now - t < 300000) :
    isLocationRecent now ts = false := by
  unfold isLocationRecent
  rw [hts]
  split
  · simp [hge]
  · rfl

theorem isLocationRecent_of_lt (now t : Int) (ts : Option TSVal)
    (hnow : 300000 ≤ now) (hts : tsToMillis ts = some t)
    (hlt : now - t < 300000) : isLocationRecent now ts = true := by
  have htruthy : tsTruthy ts = true := by
    cases ts with
    | none => simp [tsToMillis] at hts
    | some v =>
      cases v with
      | fsSeconds s => rfl
      | dateVal v => rfl
      | millis m =>
        simp only [tsToMillis, Option.some.injEq] at hts
        subst hts
        simp only [tsTruthy, decide_eq_true_eq]
        omega
  unfold isLocationRecent
  rw [hts, htruthy]
  simp [hlt]

theorem containsChars_nil (s : List Char) : containsChars [] s = true := by
  cases s <;> rfl

theorem jsToLower_empty : jsToLower "" = "" := rfl

theorem optFieldMatches_empty (field : Option String) :
    optFieldMatches field "" = field.isSome := by
  cases field with
  | none => rfl
  | some s =>
    show jsIncludes (jsToLower s) (jsToLower "") = true
    rw [jsToLower_empty]
    exact containsChars_nil _

/-- Claim C2: on a response error with HTTP status 401 the interceptor
removes the token and user entries from local storage and redirects to
/login; on any other status the browser state is left unchanged; and in
every case the original error is re-rejected. -/
theorem spec_C2 (error : ApiError) (b : BrowserState) :
    (error.status = some 401 →
      responseErrorInterceptor error b =
        ({ storage := { b.storage with token := none, user := none },
           href := "/login" }, error)) ∧
    (error.status ≠ some 401 →
      responseErrorInterceptor error b = (b, error)) ∧
    (responseErrorInterceptor error b).2 = error := by
  unfold responseErrorInterceptor
  refine ⟨fun h => ?_, fun h => ?_, ?_⟩
  · simp [h]
  · simp [h]
  · split <;> rfl

theorem spec_C2_witness :
    responseErrorInterceptor { status := some 401 }
        { storage := { token := some "tok", user := some "usr" }, href := "/dashboard" } =
      ({ storage := { token := none, user := none }, href := "/login" },
       { status := some 401 }) :=
  (spec_C2 { status := some 401 }
    { storage := { token := some "tok", user := some "usr" }, href := "/dashboard" }).1 rfl

/-- Claim C3, counterexample: local storage can contain a token entry
holding the empty string; the JavaScript truthiness guard then leaves the
headers unchanged instead of setting the Authorization header. -/
theorem spec_C3_counterexample :
    (requestInterceptor { token := some "", user := none }
        { authorization := none }).authorization ≠ some ("Bearer " ++ "") := by
  decide

/-- Claim C3 (amended): when local storage contains a non-empty token
entry, the request interceptor sets the Authorization header to the Bearer
string; when no token entry exists or the stored token is empty, the
request is left unchanged. -/
theorem spec_C3 (storage : Storage) (config : RequestConfig) :
    (∀ token, storage.token = some token → token ≠ "" →
      requestInterceptor storage config =
        { config with authorization := some ("Bearer " ++ token) }) ∧
    ((storage.token = none ∨ storage.token = some "") →
      requestInterceptor storage config = config) := by
  constructor
  · intro token h hne
    simp [requestInterceptor, h, hne]
  · rintro (h | h) <;> simp [requestInterceptor, h]

theorem spec_C3_witness :
    requestInterceptor { token := some "abc", user := none } { authorization := none } =
      { authorization := some ("Bearer " ++ "abc") } :=
  (spec_C3 { token := some "abc", user := none } { authorization := none }).1
    "abc" rfl (by decide)

/-- Claim C4, counterexample: not every failure handler both alerts and
logs; the Map page data fetch (among others) only logs to the console, and
the login handler neither alerts nor logs. -/
theorem spec_C4_counterexample :
    ¬ ∀ h ∈ errorHandlers,
        h.alerts = true ∧ h.logsConsole = true ∧ h.retries = false := by
  decide

/-- Claim C4 (amended): no failure handler retries; every handler except
the login handler logs to the console; and a user-facing alert is shown by
exactly the handlers outside the silent set (background refreshes, the
image loader, the per-driver location fetch, the DeliveryPoints driver list
fetch, and the login handler, which returns the message to its caller). -/
theorem spec_C4 :
    errorHandlers.all (fun h =>
      !h.retries &&
      (h.logsConsole == (h.name != "AuthContext.login")) &&
      (h.alerts == !(silentHandlers.contains h.name))) = true := by
  decide

/-- Claim C8: the driver edit submission sends exactly fullname and phone,
plus password exactly when a non-empty password was entered; in particular
username and role are never part of the update body. -/
theorem spec_C8 (formData : DriverForm) :
    driverEditRequestBody formData =
      [("fullname", formData.fullname), ("phone", formData.phone)] ++
        (if formData.password = "" then []
         else [("password", formData.password)]) ∧
    ((driverEditRequestBody formData).map Prod.fst).contains "username" = false ∧
    ((driverEditRequestBody formData).map Prod.fst).contains "role" = false := by
  by_cases hp : formData.password = "" <;>
    simp [driverEditRequestBody, handleSubmitEditData, driversAPIUpdateBody, hp]

/-- Claim C9: the bulk assignment issues exactly one assign request per
selected delivery with status pending; selected deliveries with any other
status are never sent a request, and when no pending delivery is selected
(or no driver is selected) no request is issued at all. -/
theorem spec_C9 (driver : Driver) (sel : List Delivery) :
    handleAssignDeliveries (some driver) sel =
      (sel.filter fun d => d.status == "pending").map
        (fun d => { deliveryId := d.id, driverId := driver.id }) ∧
    ((∀ d ∈ sel, d.status ≠ "pending") →
      handleAssignDeliveries (some driver) sel = []) ∧
    handleAssignDeliveries none sel = [] := by
  have hmain : handleAssignDeliveries (some driver) sel =
      (sel.filter fun d => d.status == "pending").map
        (fun d => ({ deliveryId := d.id, driverId := driver.id } : AssignRequest)) := by
    unfold handleAssignDeliveries
    cases sel with
    | nil => rfl
    | cons a tl =>
      simp only [List.isEmpty_cons, Bool.false_eq_true, if_false]
      split
      · rename_i hemp
        rw [List.isEmpty_iff] at hemp
        rw [hemp]
        rfl
      · rfl
  refine ⟨hmain, fun hall => ?_, rfl⟩
  rw [hmain]
  have hnil : sel.filter (fun d => d.status == "pending") = [] := by
    rw [List.filter_eq_nil_iff]
    intro d hd
    simp [hall d hd]
  rw [hnil]
  rfl

theorem spec_C9_witness :
    handleAssignDeliveries
        (some { id := 7, fullname := "A", username := "a", phone := "1" })
        [{ id := 3, title := some "t", description := none, destination := none,
           items := [], status := "assigned", assignedDriverId := some 7,
           driverName := some "A" }] = [] :=
  (spec_C9 { id := 7, fullname := "A", username := "a", phone := "1" }
    [{ id := 3, title := some "t", description := none, destination := none,
       items := [], status := "assigned", assignedDriverId := some 7,
       driverName := some "A" }]).2.1 (by decide)

/-- Claim C5: when the locations endpoint returns one record per driver
holding that driver's last ping, the Online Now statistic equals the
number of drivers whose last ping passes the recency test; and for a ping
with a valid converted timestamp the recency test holds exactly when the
timestamp is strictly later than now minus five minutes. -/
theorem spec_C5 (now : Int) (drivers : List Driver) (lastPing : Driver → LocRecord) :
    dashboardOnlineDrivers now (drivers.map lastPing) =
      (drivers.filter fun d => dashRecent now (lastPing d).timestamp).length ∧
    (∀ ts t, tsToMillis ts = some t →
      (dashRecent now ts = true ↔ now - 300000 < t)) := by
  constructor
  · unfold dashboardOnlineDrivers
    induction drivers with
    | nil => rfl
    | cons d tl ih =>
      simp only [List.map_cons, List.filter_cons]
      cases hp : dashRecent now (lastPing d).timestamp <;> simp [hp, ih]
  · intro ts t hts
    simp [dashRecent, hts]

theorem spec_C5_witness :
    tsToMillis (some (TSVal.millis 999999)) = some 999999 ∧
      (dashRecent 1000000 (some (TSVal.millis 999999)) = true ↔
        (1000000 : Int) - 300000 < 999999) :=
  ⟨rfl, (spec_C5 1000000 [] (fun _ => { driverId := 0, timestamp := none })).2
    (some (TSVal.millis 999999)) 999999 rfl⟩

theorem length_eq_statusCounts (l : List Delivery)
    (h : ∀ d ∈ l, d.status = "pending" ∨ d.status = "assigned" ∨
        d.status = "completed" ∨ d.status = "approved") :
    l.length =
      (l.filter fun d => d.status == "pending").length +
      (l.filter fun d => d.status == "assigned").length +
      (l.filter fun d => d.status == "completed").length +
      (l.filter fun d => d.status == "approved").length := by
  induction l with
  | nil => rfl
  | cons d tl ih =>
    have hd := h d (List.mem_cons_self d tl)
    have htl := ih fun x hx => h x (List.mem_cons_of_mem d hx)
    simp only [List.length_cons, List.filter_cons]
    rcases hd with h1 | h1 | h1 | h1 <;> rw [h1] <;> simp <;> omega

/-- Claim C6: when every delivery status is one of pending, assigned,
completed, approved, the Delivery Status stats satisfy
total = pending + assigned + completed + approved. -/
theorem spec_C6 (deliveries : List Delivery)
    (h : ∀ d ∈ deliveries, d.status = "pending" ∨ d.status = "assigned" ∨
        d.status = "completed" ∨ d.status = "approved") :
    (deliveryStats deliveries).total =
      (deliveryStats deliveries).pending + (deliveryStats deliveries).assigned +
      (deliveryStats deliveries).completed + (deliveryStats deliveries).approved := by
  simpa [deliveryStats] using length_eq_statusCounts deliveries h

theorem spec_C6_witness :
    (deliveryStats
        [{ id := 1, title := some "a", description := none, destination := none,
           items := [], status := "pending", assignedDriverId := none,
           driverName := none },
         { id := 2, title := some "b", description := none, destination := none,
           items := [], status := "approved", assignedDriverId := none,
           driverName := none }]).total =
      (deliveryStats
        [{ id := 1, title := some "a", description := none, destination := none,
           items := [], status := "pending", assignedDriverId := none,
           driverName := none },
         { id := 2, title := some "b", description := none, destination := none,
           items := [], status := "approved", assignedDriverId := none,
           driverName := none }]).pending +
      (deliveryStats
        [{ id := 1, title := some "a", description := none, destination := none,
           items := [], status := "pending", assignedDriverId := none,
           driverName := none },
         { id := 2, title := some "b", description := none, destination := none,
           items := [], status := "approved", assignedDriverId := none,
           driverName := none }]).assigned +
      (deliveryStats
        [{ id := 1, title := some "a", description := none, destination := none,
           items := [], status := "pending", assignedDriverId := none,
           driverName := none },
         { id := 2, title := some "b", description := none, destination := none,
           items := [], status := "approved", assignedDriverId := none,
           driverName := none }]).completed +
      (deliveryStats
        [{ id := 1, title := some "a", description := none, destination := none,
           items := [], status := "pending", assignedDriverId := none,
           driverName := none },
         { id := 2, title := some "b", description := none, destination := none,
           items := [], status := "approved", assignedDriverId := none,
           driverName := none }]).approved :=
  spec_C6 _ (by decide)

/-- Claim C7: with auto-refresh enabled the Map effect registers a 30000
millisecond fetchData interval and its cleanup removes exactly that
interval, restoring the original active set; with auto-refresh disabled no
interval is created and the cleanup is the identity. -/
theorem spec_C7 (s : TimerState) (hwf : ∀ i ∈ s.active, i.id < s.nextId) :
    ((mapRefreshEffect true s).state.active =
        s.active ++ [{ id := s.nextId, callback := "fetchData", periodMs := 30000 }] ∧
      (mapRefreshEffect true s).intervalId = some s.nextId ∧
      (mapRefreshCleanup (mapRefreshEffect true s).intervalId
          (mapRefreshEffect true s).state).active = s.active) ∧
    ((mapRefreshEffect false s).state = s ∧
      (mapRefreshEffect false s).intervalId = none ∧
      mapRefreshCleanup (mapRefreshEffect false s).intervalId
          (mapRefreshEffect false s).state = s) := by
  refine ⟨⟨rfl, rfl, ?_⟩, rfl, rfl, rfl⟩
  show (jsClearInterval s.nextId
      { nextId := s.nextId + 1
      , active := s.active ++
          [{ id := s.nextId, callback := "fetchData", periodMs := 30000 }] }).active =
    s.active
  unfold jsClearInterval
  simp only [List.filter_append]
  have h1 : s.active.filter (fun i => i.id != s.nextId) = s.active := by
    rw [List.filter_eq_self]
    intro i hi
    simp [Nat.ne_of_lt (hwf i hi)]
  have h2 : ([{ id := s.nextId, callback := "fetchData", periodMs := 30000 }] :
      List Interval).filter (fun i => i.id != s.nextId) = [] := by
    simp
  rw [h1, h2, List.append_nil]

theorem spec_C7_witness :
    (mapRefreshCleanup
        (mapRefreshEffect true { nextId := 0, active := [] }).intervalId
        (mapRefreshEffect true { nextId := 0, active := [] }).state).active = [] :=
  (spec_C7 { nextId := 0, active := [] } (by simp)).1.2.2

/-- Claim C10: with an empty search term and the all status filter, the
delivery list filter keeps exactly the deliveries with at least one of
title, destination, driverName present, so a delivery missing all three is
dropped even though no filter is active; on a list where every delivery
has a title the filter is the identity. -/
theorem spec_C10 (deliveries : List Delivery) :
    filteredDeliveries "" "all" deliveries =
      deliveries.filter
        (fun d => d.title.isSome || d.destination.isSome || d.driverName.isSome) ∧
    ((∀ d ∈ deliveries, d.title.isSome) →
      filteredDeliveries "" "all" deliveries = deliveries) := by
  have hmain : filteredDeliveries "" "all" deliveries =
      deliveries.filter
        (fun d => d.title.isSome || d.destination.isSome || d.driverName.isSome) := by
    unfold filteredDeliveries
    apply List.filter_congr
    intro d _
    simp [optFieldMatches_empty]
  refine ⟨hmain, fun h => ?_⟩
  rw [hmain, List.filter_eq_self]
  intro d hd
  simp [h d hd]

theorem spec_C10_witness :
    filteredDeliveries "" "all"
        [{ id := 5, title := none, description := none, destination := none,
           items := [], status := "pending", assignedDriverId := none,
           driverName := none }] = [] ∧
      filteredDeliveries "" "all"
        [{ id := 6, title := some "x", description := none, destination := none,
           items := [], status := "pending", assignedDriverId := none,
           driverName := none }] =
        [{ id := 6, title := some "x", description := none, destination := none,
           items := [], status := "pending", assignedDriverId := none,
           driverName := none }] :=
  ⟨by
    rw [(spec_C10 _).1]
    rfl,
   (spec_C10 _).2 (by decide)⟩

/-- Claim C1: on the Map page a driver is offline when there is no
location log for the selected date or when the latest ping is not within
the five minute recency threshold (now minus ping time strictly less than
5*60*1000 ms, an invalid ping time counting as not recent); when the
latest ping is recent the status is delivering when some fetched delivery
is assigned to the driver with status assigned, and online otherwise. The
current time is assumed to be at least five minutes past the epoch. -/
theorem spec_C1 (env : MapEnv) (driver : Driver) (hnow : 300000 ≤ env.now) :
    (getLatestLocation env driver.id = none →
      getDriverStatus env driver = "offline") ∧
    (∀ loc, getLatestLocation env driver.id = some loc →
      (tsToMillis loc.timestamp = none →
        getDriverStatus env driver = "offline") ∧
      (∀ t, tsToMillis loc.timestamp = some t →
        (¬ env.now - t < 300000 → getDriverStatus env driver = "offline") ∧
        (env.now - t < 300000 →
          ((∃ d ∈ env.deliveries,
              d.assignedDriverId = some driver.id ∧ d.status = "assigned") →
            getDriverStatus env driver = "delivering") ∧
          ((∀ d ∈ env.deliveries,
              ¬(d.assignedDriverId = some driver.id ∧ d.status = "assigned")) →
            getDriverStatus env driver = "online")))) := by
  refine ⟨fun h0 => ?_, fun loc hloc =>
    ⟨fun hnone => ?_, fun t ht =>
      ⟨fun hge => ?_, fun hlt => ⟨fun hact => ?_, fun hinact => ?_⟩⟩⟩⟩
  · simp [getDriverStatus, h0]
  · have hrec := isLocationRecent_of_tsToMillis_none env.now loc.timestamp hnone
    simp [getDriverStatus, hloc, hrec]
  · have hrec := isLocationRecent_of_not_lt env.now t loc.timestamp ht hge
    simp [getDriverStatus, hloc, hrec]
  · have hrec := isLocationRecent_of_lt env.now t loc.timestamp hnow ht hlt
    have hany : hasActiveDeliveries env driver = true := by
      obtain ⟨d, hd, h1, h2⟩ := hact
      unfold hasActiveDeliveries
      rw [List.any_eq_true]
      exact ⟨d, hd, by simp [h1, h2]⟩
    simp [getDriverStatus, hloc, hrec, hany]
  · have hrec := isLocationRecent_of_lt env.now t loc.timestamp hnow ht hlt
    have hany : hasActiveDeliveries env driver = false := by
      unfold hasActiveDeliveries
      rw [List.any_eq_false]
      intro d hd
      simp only [Bool.and_eq_true, beq_iff_eq, not_and]
      exact fun h1 h2 => hinact d hd ⟨h1, h2⟩
    simp [getDriverStatus, hloc, hrec, hany]

theorem spec_C1_witness :
    (300000 : Int) ≤ 1000000 ∧
      getDriverStatus
        { driverLocations := fun _ => none, selectedDate := none,
          deliveries := [], now := 1000000 }
        { id := 1, fullname := "B", username := "b", phone := "2" } = "offline" :=
  ⟨by decide,
   (spec_C1
     { driverLocations := fun _ => none, selectedDate := none,
       deliveries := [], now := 1000000 }
     { id := 1, fullname := "B", username := "b", phone := "2" }
     (by decide)).1 rfl⟩

end DriverAdmin
